import Mathlib

/-!
Verification development for the Snapshot repository: a collection of 23
self-contained Keras example/guide scripts.  The development shallowly embeds
(a) an inventory of the repository's source files, recording for each file
which phases of the tutorial shape it contains and which error-handling,
weight-mutation and concurrency constructs appear in it, and (b) the
algorithmic kernels original to the repository (the PixelCNN kernel mask, the
CutMix bounding box, the CaiT class-attention and stochastic-depth layers, and
the custom variable serialization hooks), each translated from the Python
source.
-/

namespace Snapshot

/-! ## Inventory of the repository's source files

One constructor per source file, in directory-walk order.  The per-file facts
below were read off the Python sources; each definition's doc comment says
which construct of the file it records. -/

/-- The 23 source files of the repository. -/
inductive SrcFile
  | kt_api_master                          -- scripts/kt_api_master.py
  | uk_ireland_accent_recognition          -- examples/audio/uk_ireland_accent_recognition.py
  | pixelcnn                               -- examples/generative/pixelcnn.py
  | reproducibility_recipes                -- examples/keras_recipes/reproducibility_recipes.py
  | trainer_pattern                        -- examples/keras_recipes/trainer_pattern.py
  | multi_label_classification             -- examples/nlp/multi_label_classification.py
  | deep_neural_decision_forests           -- examples/structured_data/deep_neural_decision_forests.py
  | cait                                   -- examples/vision/cait.py
  | cutmix                                 -- examples/vision/cutmix.py
  | deeplabv3_plus                         -- examples/vision/deeplabv3_plus.py
  | edsr                                   -- examples/vision/edsr.py
  | integrated_gradients                   -- examples/vision/integrated_gradients.py
  | learnable_resizer                      -- examples/vision/learnable_resizer.py
  | semisupervised_simclr                  -- examples/vision/semisupervised_simclr.py
  | siamese                                -- examples/vision/siamese.py
  | siamesenetwork                         -- examples/vision/siamesenetwork.py
  | yolov8                                 -- examples/vision/yolov8.py
  | customizing_saving_and_serialization   -- guides/customizing_saving_and_serialization.py
  | generate_with_stable_diffusion         -- guides/keras_cv/generate_with_stable_diffusion.py
  | object_detection_keras_cv              -- guides/keras_cv/object_detection_keras_cv.py
  | retina_net_overview                    -- guides/keras_cv/retina_net_overview.py
  | upload                                 -- guides/keras_nlp/upload.py
  | unified_distribution                   -- guides/unified_distribution.py
  deriving DecidableEq, Repr

/-- All 23 source files, in directory-walk order. -/
def allFiles : List SrcFile :=
  [.kt_api_master, .uk_ireland_accent_recognition, .pixelcnn,
   .reproducibility_recipes, .trainer_pattern, .multi_label_classification,
   .deep_neural_decision_forests, .cait, .cutmix, .deeplabv3_plus, .edsr,
   .integrated_gradients, .learnable_resizer, .semisupervised_simclr,
   .siamese, .siamesenetwork, .yolov8, .customizing_saving_and_serialization,
   .generate_with_stable_diffusion, .object_detection_keras_cv,
   .retina_net_overview, .upload, .unified_distribution]

/-- The tutorial phases a script may contain. `loadsData`: the script
downloads, loads or synthesizes its input data (dataset loaders, `get_file`,
`tfds`, inline/`np.random` data).  `buildsModel`: it builds a model by layer
composition or loads a pretrained one.  `compilesModel`: it calls
`.compile(...)`.  `callsFit`: it runs a training loop via `.fit(...)`.
`visualizes`: it renders plots or images of results (matplotlib,
`keras_cv.visualization`, saved/displayed images), as opposed to only
printing text. -/
structure Phases where
  loadsData : Bool
  buildsModel : Bool
  compilesModel : Bool
  callsFit : Bool
  visualizes : Bool
  deriving DecidableEq, Repr

/-- Phase facts per file, read off the sources.  Notable rows:
`kt_api_master.py` is a pure data file (nested dict literals used for docs
generation; no imports, no model, no training); `cait.py` and
`integrated_gradients.py` load pretrained models and only run
inference/analysis; `generate_with_stable_diffusion.py` only samples from a
pretrained StableDiffusion model; `upload.py` fine-tunes a precompiled
`keras_nlp` preset (calls `.fit` but never `.compile`);
`reproducibility_recipes.py`, `trainer_pattern.py`,
`deep_neural_decision_forests.py`, `customizing_saving_and_serialization.py`,
`upload.py` and `unified_distribution.py` end with printed output only and
never plot. -/
def phases : SrcFile → Phases
  | .kt_api_master                        => ⟨false, false, false, false, false⟩
  | .uk_ireland_accent_recognition        => ⟨true, true, true, true, true⟩
  | .pixelcnn                             => ⟨true, true, true, true, true⟩
  | .reproducibility_recipes              => ⟨true, true, true, true, false⟩
  | .trainer_pattern                      => ⟨true, true, true, true, false⟩
  | .multi_label_classification           => ⟨true, true, true, true, true⟩
  | .deep_neural_decision_forests         => ⟨true, true, true, true, false⟩
  | .cait                                 => ⟨true, true, false, false, true⟩
  | .cutmix                               => ⟨true, true, true, true, true⟩
  | .deeplabv3_plus                       => ⟨true, true, true, true, true⟩
  | .edsr                                 => ⟨true, true, true, true, true⟩
  | .integrated_gradients                 => ⟨true, true, false, false, true⟩
  | .learnable_resizer                    => ⟨true, true, true, true, true⟩
  | .semisupervised_simclr                => ⟨true, true, true, true, true⟩
  | .siamese                              => ⟨true, true, true, true, true⟩
  | .siamesenetwork                       => ⟨true, true, true, true, true⟩
  | .yolov8                               => ⟨true, true, true, true, true⟩
  | .customizing_saving_and_serialization => ⟨true, true, true, true, false⟩
  | .generate_with_stable_diffusion       => ⟨false, true, false, false, true⟩
  | .object_detection_keras_cv            => ⟨true, true, true, true, true⟩
  | .retina_net_overview                  => ⟨true, true, true, true, true⟩
  | .upload                               => ⟨true, true, false, true, false⟩
  | .unified_distribution                 => ⟨true, true, true, true, false⟩

/-- A file has the full linear tutorial shape claimed by the spec:
load data, build model, compile, fit, visualize. -/
def tutorialShape (f : SrcFile) : Bool :=
  (phases f).loadsData && (phases f).buildsModel && (phases f).compilesModel
    && (phases f).callsFit && (phases f).visualizes

/-- Whether the file contains a `raise` statement of its own (input
validation).  True exactly for `integrated_gradients.py`
(`GradVisualizer.process_grads`, three `raise ValueError`s at lines 312-319)
and `cutmix.py` (`resnet_v20`, `raise ValueError` at line 295). -/
def definesValidationRaise : SrcFile → Bool
  | .integrated_gradients => true
  | .cutmix => true
  | _ => false

/-- Whether the file contains a try/except block (custom recovery, retry or
partial-failure handling).  No source file does. -/
def hasTryExcept : SrcFile → Bool
  | _ => false

/-- Whether repository code in the file assigns a model weight variable
directly (outside the framework's training loop).  True exactly for
`pixelcnn.py` (`PixelConvLayer.call` runs
`self.conv.kernel.assign(self.conv.kernel * self.mask)`, line 69) and
`customizing_saving_and_serialization.py`
(`LayerWithCustomVariables.load_own_variables` runs
`self.stored_variables.assign(store["variables"])`, line 83). -/
def assignsWeightDirectly : SrcFile → Bool
  | .pixelcnn => true
  | .customizing_saving_and_serialization => true
  | _ => false

/-- Whether the file defines any scheduling, locking or cancellation logic of
its own (threads, locks, process pools, async).  No source file does: the
only concurrency-related code is configuration passed to framework APIs. -/
def definesSchedulingOrLocking : SrcFile → Bool
  | _ => false

/-- The kinds of concurrency-related configuration the scripts pass to the
framework. -/
inductive ConcKind
  | parallelMapHint     -- `num_parallel_calls=AUTOTUNE` passed to `Dataset.map`
  | prefetchBuffer      -- a buffer size passed to `Dataset.prefetch`
  | distributionConfig  -- `DeviceMesh`/`DataParallel`/`ModelParallel` config objects
  deriving DecidableEq, Repr

/-- One record per (file, kind) pair at which the repository touches a
concurrency-related framework API, read off the sources. -/
structure ConcUse where
  file : SrcFile
  kind : ConcKind
  deriving DecidableEq, Repr

/-- Every concurrency-related call site in the repository: one record per
(file, kind) pair, covering all `num_parallel_calls` map hints (9 files,
including object_detection_keras_cv.py lines 316-441 and
retina_net_overview.py lines 140-141 and 311), all `prefetch` buffer
settings (12 files, including object_detection_keras_cv.py lines 443-444
and retina_net_overview.py lines 143-144), and the
`keras.distribution` mesh/layout configuration of unified_distribution.py.
No other concurrency construct (interleave, threads, pools, async,
multiprocessing) occurs anywhere in the sources. -/
def concurrencyUses : List ConcUse :=
  [⟨.uk_ireland_accent_recognition, .prefetchBuffer⟩,
   ⟨.reproducibility_recipes, .parallelMapHint⟩,
   ⟨.reproducibility_recipes, .prefetchBuffer⟩,
   ⟨.multi_label_classification, .parallelMapHint⟩,
   ⟨.multi_label_classification, .prefetchBuffer⟩,
   ⟨.cutmix, .parallelMapHint⟩,
   ⟨.cutmix, .prefetchBuffer⟩,
   ⟨.deeplabv3_plus, .parallelMapHint⟩,
   ⟨.deeplabv3_plus, .prefetchBuffer⟩,
   ⟨.edsr, .parallelMapHint⟩,
   ⟨.edsr, .prefetchBuffer⟩,
   ⟨.learnable_resizer, .parallelMapHint⟩,
   ⟨.learnable_resizer, .prefetchBuffer⟩,
   ⟨.semisupervised_simclr, .prefetchBuffer⟩,
   ⟨.siamesenetwork, .prefetchBuffer⟩,
   ⟨.yolov8, .parallelMapHint⟩,
   ⟨.yolov8, .prefetchBuffer⟩,
   ⟨.object_detection_keras_cv, .parallelMapHint⟩,
   ⟨.object_detection_keras_cv, .prefetchBuffer⟩,
   ⟨.retina_net_overview, .parallelMapHint⟩,
   ⟨.retina_net_overview, .prefetchBuffer⟩,
   ⟨.unified_distribution, .distributionConfig⟩]

/-- The two custom contrastive training steps named by the spec, with the
structural facts of their bodies: whether the loss is computed inside a
`tf.GradientTape`, whether the gradients are applied through the optimizer
set at `compile` time, whether a framework loss function
(`keras.losses.*`) is invoked to produce the loss, and whether the loss value
is (partly) computed by repository-original tensor arithmetic. -/
structure TrainStepDef where
  file : SrcFile
  usesGradientTape : Bool
  appliesCompiledOptimizer : Bool
  callsFrameworkLossFn : Bool
  originalLossArithmetic : Bool
  deriving DecidableEq, Repr

/-- `SiameseModel.train_step` (siamesenetwork.py, lines 281-312): computes a
triplet margin loss from `tf.reduce_sum`, `tf.square`, `tf.maximum` and
`tf.reduce_mean` only — no `keras.losses` function is invoked — inside a
`GradientTape`, and applies gradients via `self.optimizer.apply_gradients`. -/
def siameseTrainStep : TrainStepDef :=
  ⟨.siamesenetwork, true, true, false, true⟩

/-- `ContrastiveModel.train_step` (semisupervised_simclr.py, lines 506-549):
computes the InfoNCE loss by l2-normalizing projections, building a
temperature-scaled similarity matrix, and feeding it to
`keras.losses.sparse_categorical_crossentropy` (and the probe loss to
`keras.losses.SparseCategoricalCrossentropy`), inside `GradientTape`s, and
applies gradients via the optimizers set in `compile`. -/
def simclrTrainStep : TrainStepDef :=
  ⟨.semisupervised_simclr, true, true, true, true⟩

/-- The contrastive training steps the claim quantifies over. -/
def contrastiveTrainSteps : List TrainStepDef :=
  [siameseTrainStep, simclrTrainStep]

/-! ## Structural claims (C1, C3, C4, C5, C7) -/

/-- C1, counterexample: not every source file is a tutorial of the linear
shape load data → build model → compile → fit → visualize.
`scripts/kt_api_master.py` is a source file of the repository yet consists
solely of nested dictionary literals (a docs-generation configuration table):
it loads no data, builds no model, never compiles or fits, and visualizes
nothing. -/
theorem C1_tutorial_shape_counterexample :
    SrcFile.kt_api_master ∈ allFiles
      ∧ tutorialShape SrcFile.kt_api_master = false := by
  decide

/-- C1, amended: every source file that runs a training loop (calls `fit`)
also loads or synthesizes its data and builds or loads its model first; the
files with no training loop are exactly `kt_api_master.py` (a
docs-configuration data table), `cait.py`, `integrated_gradients.py` and
`generate_with_stable_diffusion.py` (inference-only demonstrations of
pretrained models); the only script that fits without calling `compile`
is `upload.py`, which fine-tunes a precompiled preset; and the training
scripts that end without any visualization of results (printed metrics
only) are exactly `reproducibility_recipes.py`, `trainer_pattern.py`,
`deep_neural_decision_forests.py`,
`customizing_saving_and_serialization.py`, `upload.py` and
`unified_distribution.py`. -/
theorem C1_tutorial_shape_amended :
    allFiles.filter (fun f => (phases f).callsFit
        && !((phases f).loadsData && (phases f).buildsModel)) = []
      ∧ allFiles.filter (fun f => !(phases f).callsFit)
        = [.kt_api_master, .cait, .integrated_gradients,
           .generate_with_stable_diffusion]
      ∧ allFiles.filter (fun f => (phases f).callsFit
          && !(phases f).compilesModel) = [.upload]
      ∧ allFiles.filter (fun f => (phases f).callsFit
          && !(phases f).visualizes)
        = [.reproducibility_recipes, .trainer_pattern,
           .deep_neural_decision_forests,
           .customizing_saving_and_serialization, .upload,
           .unified_distribution] := by
  decide

/-- C3, counterexample: repository code does mutate a model's weights
directly.  `PixelConvLayer.call` in `pixelcnn.py` assigns the wrapped
`Conv2D` layer's trainable kernel in place
(`self.conv.kernel.assign(self.conv.kernel * self.mask)`). -/
theorem C3_weight_mutation_counterexample :
    SrcFile.pixelcnn ∈ allFiles
      ∧ assignsWeightDirectly SrcFile.pixelcnn = true := by
  decide

/-- C3, amended: the only places where repository code assigns a weight
variable directly are `PixelConvLayer.call`'s in-place masking of its
`Conv2D` kernel (pixelcnn.py) and
`LayerWithCustomVariables.load_own_variables`' restore of its stored
variable (customizing_saving_and_serialization.py); in every other file all
weight mutation happens inside the framework's training loop. -/
theorem C3_weight_mutation_amended :
    allFiles.filter assignsWeightDirectly
      = [.pixelcnn, .customizing_saving_and_serialization] := by
  decide

/-- C4, counterexample: the repository does define input-validation raises of
its own.  `integrated_gradients.py` (`GradVisualizer.process_grads`) raises
`ValueError` on a bad `polarity` or percentile argument. -/
theorem C4_error_handling_counterexample :
    SrcFile.integrated_gradients ∈ allFiles
      ∧ definesValidationRaise SrcFile.integrated_gradients = true := by
  decide

/-- C4, amended: no script performs custom recovery, retry or
partial-failure handling (no try/except exists anywhere in the repository),
but two scripts define their own input-validation raises:
`cutmix.py` (`resnet_v20` checks `depth`) and `integrated_gradients.py`
(`GradVisualizer.process_grads` checks `polarity` and the percentiles); all
other errors propagate as framework exceptions. -/
theorem C4_error_handling_amended :
    allFiles.filter hasTryExcept = []
      ∧ allFiles.filter definesValidationRaise
        = [.cutmix, .integrated_gradients] := by
  decide

/-- C5, counterexample: the Siamese training step does not compute its loss
by invoking a framework loss function.  `SiameseModel.train_step` builds its
triplet margin loss from elementwise tensor arithmetic
(`tf.reduce_sum`/`tf.square`/`tf.maximum`/`tf.reduce_mean`) — loss
computation original to the repository — and calls no `keras.losses`
function. -/
theorem C5_contrastive_steps_counterexample :
    siameseTrainStep ∈ contrastiveTrainSteps
      ∧ siameseTrainStep.callsFrameworkLossFn = false
      ∧ siameseTrainStep.originalLossArithmetic = true := by
  decide

/-- C5, amended: both contrastive training steps (SimCLR and Siamese)
compute their loss inside a `GradientTape` and apply the resulting gradients
via the optimizer supplied at `compile` time; the SimCLR step feeds
repository-computed temperature-scaled similarity logits to the framework's
sparse categorical cross-entropy, while the Siamese step computes its triplet
margin loss entirely from elementwise tensor operations, invoking no
framework loss function — so both steps contain loss computation original to
the repository. -/
theorem C5_contrastive_steps_amended :
    contrastiveTrainSteps.all
        (fun t => t.usesGradientTape && t.appliesCompiledOptimizer) = true
      ∧ simclrTrainStep.callsFrameworkLossFn = true
      ∧ siameseTrainStep.callsFrameworkLossFn = false
      ∧ contrastiveTrainSteps.all (fun t => t.originalLossArithmetic) = true := by
  decide

/-- C7: no source file defines scheduling, locking or cancellation logic of
its own, and every concurrency-related call site in the repository only
passes configuration (a parallel-map hint, a prefetch buffer size, or a
distribution-layout object) to the framework's dataset and distribution
APIs. -/
theorem C7_concurrency_config_only :
    allFiles.filter definesSchedulingOrLocking = []
      ∧ concurrencyUses.all
        (fun u => u.kind = ConcKind.parallelMapHint
          || u.kind = ConcKind.prefetchBuffer
          || u.kind = ConcKind.distributionConfig) = true := by
  decide

/-! ## StochasticDepth (examples/vision/cait.py, lines 128-146)

Tensors are modelled as rational-valued functions on an abstract index type
(one index per tensor entry, broadcasting resolved).  The uniform sample
drawn in the training branch is passed in as an explicit argument `u`. -/

namespace StochasticDepth

/-- `StochasticDepth.call`.  Translated from the source: in training mode it
computes `keep_prob = 1 - drop_prob`, draws `random_tensor =
floor(keep_prob + uniform(shape, 0, 1))` and returns
`(x / keep_prob) * random_tensor`; otherwise it returns `x` unchanged. -/
def call {ι : Type} (drop_prob : ℚ) (x : ι → ℚ) (training : Bool)
    (u : ι → ℚ) : ι → ℚ :=
  if training then
    fun i => x i / (1 - drop_prob) * ((⌊(1 - drop_prob) + u i⌋ : ℤ) : ℚ)
  else x

/-- `StochasticDepth.call` with the Python default argument
`training=False`. -/
def callDefault {ι : Type} (drop_prob : ℚ) (x : ι → ℚ) (u : ι → ℚ) : ι → ℚ :=
  call drop_prob x false u

end StochasticDepth

/-- C9: the StochasticDepth layer is the identity at inference time: for
every drop probability, input tensor and random sample, `call` with
`training=False` — and hence with the default training argument — returns
the input unchanged. -/
theorem C9_stochastic_depth_identity {ι : Type} (drop_prob : ℚ)
    (x : ι → ℚ) (u : ι → ℚ) :
    StochasticDepth.call drop_prob x false u = x
      ∧ StochasticDepth.callDefault drop_prob x u = x := by
  exact ⟨rfl, rfl⟩

/-! ## Custom variable serialization
(guides/customizing_saving_and_serialization.py, lines 71-112)

The store is modelled as an association list from keys to variable values; a
variable value is a list of rationals.  `load_own_variables` returns `none`
when the key is absent (the Python code would raise `KeyError`). -/

namespace CustomVars

/-- The layer state relevant to the custom hooks: the stored variable the
hooks serialize, and the inherited Dense kernel, which the overridden hooks
do not touch. -/
structure LayerWithCustomVariables where
  kernel : List ℚ
  stored_variables : List ℚ
  deriving DecidableEq, Repr

/-- The store `model.save()` hands to the hooks. -/
abbrev Store := List (String × List ℚ)

/-- `LayerWithCustomVariables.save_own_variables`: writes the current value
of `stored_variables` under the key `"variables"`. -/
def save_own_variables (layer : LayerWithCustomVariables) (store : Store) :
    Store :=
  ("variables", layer.stored_variables) :: store

/-- `LayerWithCustomVariables.load_own_variables`: assigns
`store["variables"]` to `stored_variables`; `none` models the `KeyError`
raised when the key is absent. -/
def load_own_variables (layer : LayerWithCustomVariables) (store : Store) :
    Option LayerWithCustomVariables :=
  match store.lookup "variables" with
  | some v => some { layer with stored_variables := v }
  | none => none

end CustomVars

/-- C10: the custom variable serialization round-trips: saving a layer's
`stored_variables` into any store and loading from that store restores
`stored_variables` to exactly the saved value — both when loading back into
the saved layer itself (which it leaves unchanged) and when loading into a
freshly initialized layer, as `keras.models.load_model` does, where the
restored layer carries the saved layer's `stored_variables`. -/
theorem C10_serialization_roundtrip
    (saved fresh : CustomVars.LayerWithCustomVariables)
    (store : CustomVars.Store) :
    CustomVars.load_own_variables saved
        (CustomVars.save_own_variables saved store) = some saved
      ∧ CustomVars.load_own_variables fresh
        (CustomVars.save_own_variables saved store)
        = some { fresh with stored_variables := saved.stored_variables } := by
  constructor
  · simp [CustomVars.load_own_variables, CustomVars.save_own_variables,
      List.lookup]
  · simp [CustomVars.load_own_variables, CustomVars.save_own_variables,
      List.lookup]

/-! ## PixelConvLayer (examples/generative/pixelcnn.py, lines 51-70)

The kernel mask depends only on the two spatial kernel coordinates (the
source sets whole channel slices at once), so the mask is modelled as a
rational-valued function of the spatial position `(i, j)` in a `kh × kw`
kernel.  The convolution is modelled over a single channel with `same`
padding on unbounded ℤ-indexed feature maps, which keeps the
data-dependency content of the claim free of boundary bookkeeping. -/

/-- The `mask_type` argument of `PixelConvLayer`: `"A"` or `"B"`. -/
inductive MaskType
  | A
  | B
  deriving DecidableEq, Repr

namespace PixelConvLayer

/-- The mask built in `PixelConvLayer.build`: starting from zeros, rows
strictly above `kh // 2` are set to 1, the entries of row `kh // 2` strictly
left of column `kw // 2` are set to 1, and for mask type `"B"` the entry at
`(kh // 2, kw // 2)` is set to 1 as well.  The three written regions are
disjoint, so the sequential writes are expressed as a single conditional. -/
def mask (t : MaskType) (kh kw : ℕ) (i j : ℕ) : ℚ :=
  if i < kh / 2 then 1
  else if i = kh / 2 ∧ j < kw / 2 then 1
  else if t = MaskType.B ∧ i = kh / 2 ∧ j = kw / 2 then 1
  else 0

/-- The kernel after the elementwise multiplication
`self.conv.kernel * self.mask` performed in `PixelConvLayer.call`. -/
def maskedKernel (t : MaskType) (kh kw : ℕ) (ker : ℕ → ℕ → ℚ) :
    ℕ → ℕ → ℚ :=
  fun i j => ker i j * mask t kh kw i j

/-- A 2-D convolution with `same` padding: the output at `(r, c)` is the sum
over kernel positions `(i, j)` of the kernel entry times the input at
`(r + i - kh // 2, c + j - kw // 2)`. -/
def conv2dSame (kh kw : ℕ) (ker : ℕ → ℕ → ℚ) (x : ℤ → ℤ → ℚ)
    (r c : ℤ) : ℚ :=
  ∑ i ∈ Finset.range kh, ∑ j ∈ Finset.range kw,
    ker i j * x (r + (i : ℤ) - ((kh / 2 : ℕ) : ℤ)) (c + (j : ℤ) - ((kw / 2 : ℕ) : ℤ))

/-- `PixelConvLayer.call`: multiply the kernel elementwise by the mask, then
convolve. -/
def call (t : MaskType) (kh kw : ℕ) (ker : ℕ → ℕ → ℚ) (x : ℤ → ℤ → ℚ)
    (r c : ℤ) : ℚ :=
  conv2dSame kh kw (maskedKernel t kh kw ker) x r c

/-- `(p, q)` comes strictly before `(r, c)` in raster order. -/
def rasterBefore (p q r c : ℤ) : Prop :=
  p < r ∨ (p = r ∧ q < c)

/-- `(p, q)` comes before `(r, c)` in raster order, or is `(r, c)` itself. -/
def rasterBeforeEq (p q r c : ℤ) : Prop :=
  rasterBefore p q r c ∨ (p = r ∧ q = c)

end PixelConvLayer

/-- C2: the PixelCNN masked convolution applies the standard autoregressive
masking trick.  First, the mask built in `PixelConvLayer.build` is 1 exactly
at kernel positions in a row strictly above the center row `kh // 2`, at
positions of the center row strictly left of the center column `kw // 2`,
and — for mask type `"B"` only — at the center position itself, and 0
everywhere else.  Second and third, since `call` multiplies the kernel
elementwise by this mask before convolving, the output of `call` at any
pixel depends only on inputs at pixels strictly earlier in raster order
(mask `"A"`), respectively earlier-or-equal (mask `"B"`): two inputs that
agree on those pixels give the same output. -/
theorem C2_pixelconv_masking :
    (∀ t kh kw i j, PixelConvLayer.mask t kh kw i j =
        if i < kh / 2 ∨ (i = kh / 2 ∧ j < kw / 2)
            ∨ (t = MaskType.B ∧ i = kh / 2 ∧ j = kw / 2)
          then 1 else 0)
    ∧ (∀ kh kw ker x₁ x₂ r c,
        (∀ p q, PixelConvLayer.rasterBefore p q r c → x₁ p q = x₂ p q) →
        PixelConvLayer.call MaskType.A kh kw ker x₁ r c
          = PixelConvLayer.call MaskType.A kh kw ker x₂ r c)
    ∧ (∀ kh kw ker x₁ x₂ r c,
        (∀ p q, PixelConvLayer.rasterBeforeEq p q r c → x₁ p q = x₂ p q) →
        PixelConvLayer.call MaskType.B kh kw ker x₁ r c
          = PixelConvLayer.call MaskType.B kh kw ker x₂ r c) := by
  refine ⟨?_, ?_, ?_⟩
  · intro t kh kw i j
    unfold PixelConvLayer.mask
    split_ifs with h1 h2 h3 h4 <;> tauto
  · intro kh kw ker x₁ x₂ r c h
    unfold PixelConvLayer.call PixelConvLayer.conv2dSame
      PixelConvLayer.maskedKernel PixelConvLayer.mask
    refine Finset.sum_congr rfl fun i hi => Finset.sum_congr rfl fun j hj => ?_
    rw [Finset.mem_range] at hi hj
    split_ifs with h1 h2 h3
    · rw [h _ _ (Or.inl (by push_cast; omega))]
    · rw [h _ _ (Or.inr ⟨by push_cast; omega, by push_cast; omega⟩)]
    · exact absurd h3.1 (by decide)
    · ring
  · intro kh kw ker x₁ x₂ r c h
    unfold PixelConvLayer.call PixelConvLayer.conv2dSame
      PixelConvLayer.maskedKernel PixelConvLayer.mask
    refine Finset.sum_congr rfl fun i hi => Finset.sum_congr rfl fun j hj => ?_
    rw [Finset.mem_range] at hi hj
    split_ifs with h1 h2 h3
    · rw [h _ _ (Or.inl (Or.inl (by push_cast; omega)))]
    · rw [h _ _ (Or.inl (Or.inr ⟨by push_cast; omega, by push_cast; omega⟩))]
    · rw [h _ _ (Or.inr ⟨by push_cast; omega, by push_cast; omega⟩)]
    · ring

/-- C2, witness: the raster-order dependency theorems applied at the origin
of concrete inputs that agree on every pixel of nonpositive row index but
differ below: both masked convolutions give equal outputs at `(0, 0)`. -/
theorem C2_pixelconv_masking_witness :
    PixelConvLayer.call MaskType.A 3 3 (fun _ _ => 1) (fun _ _ => 0) 0 0
        = PixelConvLayer.call MaskType.A 3 3 (fun _ _ => 1)
          (fun p _ => if p ≤ 0 then 0 else 5) 0 0
      ∧ PixelConvLayer.call MaskType.B 3 3 (fun _ _ => 1) (fun _ _ => 0) 0 0
        = PixelConvLayer.call MaskType.B 3 3 (fun _ _ => 1)
          (fun p _ => if p ≤ 0 then 0 else 5) 0 0 := by
  constructor
  · refine C2_pixelconv_masking.2.1 3 3 (fun _ _ => 1) _ _ 0 0 ?_
    intro p q hpq
    have hp : p ≤ 0 := by
      rcases hpq with h | ⟨h, _⟩
      · omega
      · omega
    simp [hp]
  · refine C2_pixelconv_masking.2.2 3 3 (fun _ _ => 1) _ _ 0 0 ?_
    intro p q hpq
    have hp : p ≤ 0 := by
      rcases hpq with (h | ⟨h, _⟩) | ⟨h, _⟩
      · omega
      · omega
      · omega
    simp [hp]

/-! ## CutMix bounding box (examples/vision/cutmix.py, lines 157-183)

`get_box` is translated local-by-local from the source.  `tf.math.sqrt` is
modelled by `Real.sqrt`; the `tf.cast(..., tf.int32)` of the nonnegative
products `IMG_SHAPE * cut_rat` truncates toward zero, which on nonnegative
reals is `Int.floor`; TensorFlow's integer `//` is floor division,
`Int.fdiv`; `tf.clip_by_value` is `min (max x lo) hi`. -/

namespace CutMix

/-- `IMG_SHAPE = 32` (image side length, cutmix.py line 99). -/
def IMG_SHAPE : ℤ := 32

/-- `cut_rat = sqrt(1 - l)`. -/
noncomputable def cut_rat (l : ℝ) : ℝ := Real.sqrt (1 - l)

/-- `cut_w = int32(IMG_SHAPE * cut_rat)` (and `cut_h`, computed by the same
formula). -/
noncomputable def cut_w (l : ℝ) : ℤ := ⌊(IMG_SHAPE : ℝ) * cut_rat l⌋

/-- `tf.clip_by_value x lo hi`. -/
def clip_by_value (x lo hi : ℤ) : ℤ := min (max x lo) hi

/-- `bbx1 = clip_by_value(cx - cut_w // 2, 0, IMG_SHAPE)`. -/
noncomputable def bbx1 (l : ℝ) (cx : ℤ) : ℤ :=
  clip_by_value (cx - Int.fdiv (cut_w l) 2) 0 IMG_SHAPE

/-- `bby1 = clip_by_value(cy - cut_h // 2, 0, IMG_SHAPE)`. -/
noncomputable def bby1 (l : ℝ) (cy : ℤ) : ℤ :=
  clip_by_value (cy - Int.fdiv (cut_w l) 2) 0 IMG_SHAPE

/-- `bbx2 = clip_by_value(cx + cut_w // 2, 0, IMG_SHAPE)`. -/
noncomputable def bbx2 (l : ℝ) (cx : ℤ) : ℤ :=
  clip_by_value (cx + Int.fdiv (cut_w l) 2) 0 IMG_SHAPE

/-- `bby2 = clip_by_value(cy + cut_h // 2, 0, IMG_SHAPE)`. -/
noncomputable def bby2 (l : ℝ) (cy : ℤ) : ℤ :=
  clip_by_value (cy + Int.fdiv (cut_w l) 2) 0 IMG_SHAPE

/-- `target_h = bby2 - bby1`, bumped to 1 when it is 0. -/
noncomputable def target_h (l : ℝ) (cy : ℤ) : ℤ :=
  if bby2 l cy - bby1 l cy = 0 then bby2 l cy - bby1 l cy + 1
  else bby2 l cy - bby1 l cy

/-- `target_w = bbx2 - bbx1`, bumped to 1 when it is 0. -/
noncomputable def target_w (l : ℝ) (cx : ℤ) : ℤ :=
  if bbx2 l cx - bbx1 l cx = 0 then bbx2 l cx - bbx1 l cx + 1
  else bbx2 l cx - bbx1 l cx

/-- The tuple `(bbx1, bby1, target_h, target_w)` returned by `get_box`. -/
structure Box where
  bbx1 : ℤ
  bby1 : ℤ
  target_h : ℤ
  target_w : ℤ
  deriving DecidableEq, Repr

/-- `get_box(l)`, with the two uniform draws `cx = rx`, `cy = ry` (each in
`[0, IMG_SHAPE)`) passed in explicitly. -/
noncomputable def get_box (l : ℝ) (cx cy : ℤ) : Box :=
  ⟨bbx1 l cx, bby1 l cy, target_h l cy, target_w l cx⟩

theorem clip_bounds (x lo hi : ℤ) (h : lo ≤ hi) :
    lo ≤ clip_by_value x lo hi ∧ clip_by_value x lo hi ≤ hi :=
  ⟨le_min (le_max_right x lo) h, min_le_right _ _⟩

theorem clip_le (x lo hi y : ℤ) (hx : x ≤ y) (hlo : lo ≤ y) :
    clip_by_value x lo hi ≤ y :=
  le_trans (min_le_left _ _) (max_le hx hlo)

theorem clip_mono (x y lo hi : ℤ) (h : x ≤ y) :
    clip_by_value x lo hi ≤ clip_by_value y lo hi :=
  min_le_min (max_le_max h le_rfl) le_rfl

theorem cut_w_bounds (l : ℝ) (hl0 : 0 ≤ l) :
    0 ≤ cut_w l ∧ cut_w l ≤ 32 := by
  have hIr : (IMG_SHAPE : ℝ) = 32 := by norm_num [IMG_SHAPE]
  have hs0 : 0 ≤ Real.sqrt (1 - l) := Real.sqrt_nonneg _
  have hs1 : Real.sqrt (1 - l) ≤ 1 := Real.sqrt_le_one.mpr (by linarith)
  constructor
  · unfold cut_w cut_rat
    exact Int.floor_nonneg.mpr (by rw [hIr]; nlinarith)
  · unfold cut_w cut_rat
    have hle : (IMG_SHAPE : ℝ) * Real.sqrt (1 - l) ≤ ((32 : ℤ) : ℝ) := by
      rw [hIr]; push_cast; nlinarith
    have h2 := Int.floor_le_floor hle
    rwa [Int.floor_intCast] at h2

end CutMix

/-- C8: for every `λ ∈ [0, 1]` and every pair of uniform draws
`cx, cy ∈ [0, IMG_SHAPE)`, the box returned by `get_box(λ)` is valid for an
`IMG_SHAPE × IMG_SHAPE` image: `target_h` and `target_w` are at least 1,
`bbx1` and `bby1` lie in `[0, IMG_SHAPE - 1]`, and
`bbx1 + target_w ≤ IMG_SHAPE` and `bby1 + target_h ≤ IMG_SHAPE`, so the
`crop_to_bounding_box`/`pad_to_bounding_box` calls in `cutmix` never receive
an out-of-bounds or empty box. -/
theorem C8_get_box_valid (l : ℝ) (cx cy : ℤ)
    (hl0 : 0 ≤ l) (hl1 : l ≤ 1)
    (hcx0 : 0 ≤ cx) (hcx : cx < CutMix.IMG_SHAPE)
    (hcy0 : 0 ≤ cy) (hcy : cy < CutMix.IMG_SHAPE) :
    1 ≤ (CutMix.get_box l cx cy).target_h
      ∧ 1 ≤ (CutMix.get_box l cx cy).target_w
      ∧ 0 ≤ (CutMix.get_box l cx cy).bbx1
      ∧ (CutMix.get_box l cx cy).bbx1 ≤ CutMix.IMG_SHAPE - 1
      ∧ 0 ≤ (CutMix.get_box l cx cy).bby1
      ∧ (CutMix.get_box l cx cy).bby1 ≤ CutMix.IMG_SHAPE - 1
      ∧ (CutMix.get_box l cx cy).bbx1 + (CutMix.get_box l cx cy).target_w
          ≤ CutMix.IMG_SHAPE
      ∧ (CutMix.get_box l cx cy).bby1 + (CutMix.get_box l cx cy).target_h
          ≤ CutMix.IMG_SHAPE := by
  have hI : CutMix.IMG_SHAPE = 32 := rfl
  rw [hI] at hcx hcy
  obtain ⟨hcw0, hcw32⟩ := CutMix.cut_w_bounds l hl0
  have hfd : Int.fdiv (CutMix.cut_w l) 2 = CutMix.cut_w l / 2 :=
    Int.fdiv_eq_ediv _ (by norm_num)
  have hfd0 : 0 ≤ Int.fdiv (CutMix.cut_w l) 2 := by rw [hfd]; omega
  have hfd16 : Int.fdiv (CutMix.cut_w l) 2 ≤ 16 := by rw [hfd]; omega
  have hx10 : 0 ≤ CutMix.bbx1 l cx :=
    (CutMix.clip_bounds _ 0 CutMix.IMG_SHAPE (by rw [hI]; omega)).1
  have hx1u : CutMix.bbx1 l cx ≤ 31 :=
    CutMix.clip_le _ 0 CutMix.IMG_SHAPE 31 (by omega) (by omega)
  have hx2u : CutMix.bbx2 l cx ≤ 32 := by
    have := (CutMix.clip_bounds (cx + Int.fdiv (CutMix.cut_w l) 2) 0
      CutMix.IMG_SHAPE (by rw [hI]; omega)).2
    rw [hI] at this
    exact this
  have hx12 : CutMix.bbx1 l cx ≤ CutMix.bbx2 l cx :=
    CutMix.clip_mono _ _ 0 CutMix.IMG_SHAPE (by omega)
  have hy10 : 0 ≤ CutMix.bby1 l cy :=
    (CutMix.clip_bounds _ 0 CutMix.IMG_SHAPE (by rw [hI]; omega)).1
  have hy1u : CutMix.bby1 l cy ≤ 31 :=
    CutMix.clip_le _ 0 CutMix.IMG_SHAPE 31 (by omega) (by omega)
  have hy2u : CutMix.bby2 l cy ≤ 32 := by
    have := (CutMix.clip_bounds (cy + Int.fdiv (CutMix.cut_w l) 2) 0
      CutMix.IMG_SHAPE (by rw [hI]; omega)).2
    rw [hI] at this
    exact this
  have hy12 : CutMix.bby1 l cy ≤ CutMix.bby2 l cy :=
    CutMix.clip_mono _ _ 0 CutMix.IMG_SHAPE (by omega)
  refine ⟨?_, ?_, hx10,
    by show CutMix.bbx1 l cx ≤ CutMix.IMG_SHAPE - 1; rw [hI]; omega, hy10,
    by show CutMix.bby1 l cy ≤ CutMix.IMG_SHAPE - 1; rw [hI]; omega, ?_, ?_⟩
  · show 1 ≤ CutMix.target_h l cy
    unfold CutMix.target_h
    split_ifs <;> omega
  · show 1 ≤ CutMix.target_w l cx
    unfold CutMix.target_w
    split_ifs <;> omega
  · show CutMix.bbx1 l cx + CutMix.target_w l cx ≤ CutMix.IMG_SHAPE
    rw [hI]
    unfold CutMix.target_w
    split_ifs <;> omega
  · show CutMix.bby1 l cy + CutMix.target_h l cy ≤ CutMix.IMG_SHAPE
    rw [hI]
    unfold CutMix.target_h
    split_ifs <;> omega

/-- C8, witness: `get_box` at `λ = 0` with both uniform draws 0: all
hypotheses hold there, and the theorem yields the box validity. -/
theorem C8_get_box_valid_witness :
    (0 : ℝ) ≤ 0 ∧ (0 : ℝ) ≤ 1 ∧ (0 : ℤ) < CutMix.IMG_SHAPE
      ∧ (1 ≤ (CutMix.get_box 0 0 0).target_h
        ∧ 1 ≤ (CutMix.get_box 0 0 0).target_w
        ∧ 0 ≤ (CutMix.get_box 0 0 0).bbx1
        ∧ (CutMix.get_box 0 0 0).bbx1 ≤ CutMix.IMG_SHAPE - 1
        ∧ 0 ≤ (CutMix.get_box 0 0 0).bby1
        ∧ (CutMix.get_box 0 0 0).bby1 ≤ CutMix.IMG_SHAPE - 1
        ∧ (CutMix.get_box 0 0 0).bbx1 + (CutMix.get_box 0 0 0).target_w
            ≤ CutMix.IMG_SHAPE
        ∧ (CutMix.get_box 0 0 0).bby1 + (CutMix.get_box 0 0 0).target_h
            ≤ CutMix.IMG_SHAPE) :=
  ⟨le_refl 0, zero_le_one, by norm_num [CutMix.IMG_SHAPE],
    C8_get_box_valid 0 0 0 (le_refl 0) zero_le_one (le_refl 0)
      (by norm_num [CutMix.IMG_SHAPE]) (le_refl 0)
      (by norm_num [CutMix.IMG_SHAPE])⟩

/-! ## CaiT class attention (examples/vision/cait.py, lines 187-236)

The input is a real tensor `x : Fin B → Fin (N+1) → Fin (H*Dh) → ℝ` (batch,
tokens with token 0 the CLS token, channels); `projection_dim = H * Dh`
with `H` heads of dimension `Dh`, so `head_dim = projection_dim // num_heads
= Dh` exactly.  A Keras `Dense` layer is a weight matrix plus bias.  The
`reshape`/`transpose` pairs of the source move the flat channel index
`h * Dh + d` to separate head/within-head indices; they are embedded by the
index arithmetic `flatIdx`/`unflatHead`/`unflatDim`.  The dropout layers are
identities at inference (`training=False`), the mode embedded here. -/

namespace ClassAttn

/-- A Keras `Dense(m)` layer on `n` input channels: `y = x W + b`. -/
structure DenseParams (n m : ℕ) where
  w : Fin n → Fin m → ℝ
  b : Fin m → ℝ

/-- Apply a `Dense` layer. -/
def dense {n m : ℕ} (p : DenseParams n m) (v : Fin n → ℝ) : Fin m → ℝ :=
  fun o => (∑ i, v i * p.w i o) + p.b o

/-- The flat channel index of head `h`, within-head coordinate `d`
(the `reshape (B, N, H, Dh)` of a length-`H*Dh` channel axis). -/
def flatIdx {H Dh : ℕ} (h : Fin H) (d : Fin Dh) : Fin (H * Dh) :=
  ⟨h.1 * Dh + d.1, by
    have hd := d.2
    have hh : h.1 + 1 ≤ H := h.2
    calc h.1 * Dh + d.1 < h.1 * Dh + Dh := by omega
      _ = (h.1 + 1) * Dh := by ring
      _ ≤ H * Dh := Nat.mul_le_mul_right Dh hh⟩

/-- The head index of flat channel `c`. -/
def unflatHead {H Dh : ℕ} (c : Fin (H * Dh)) : Fin H :=
  ⟨c.1 / Dh, by
    have hc := c.2
    have hD : 0 < Dh := by
      rcases Nat.eq_zero_or_pos Dh with h | h
      · subst h
        omega
      · exact h
    exact (Nat.div_lt_iff_lt_mul hD).mpr hc⟩

/-- The within-head coordinate of flat channel `c`. -/
def unflatDim {H Dh : ℕ} (c : Fin (H * Dh)) : Fin Dh :=
  ⟨c.1 % Dh, by
    have hc := c.2
    have hD : 0 < Dh := by
      rcases Nat.eq_zero_or_pos Dh with h | h
      · subst h
        omega
      · exact h
    exact Nat.mod_lt _ hD⟩

/-- The four `Dense` layers of `ClassAttn.__init__` on
`projection_dim = H * Dh` channels: `self.q`, `self.k`, `self.v`,
`self.proj`. -/
structure Params (H Dh : ℕ) where
  q : DenseParams (H * Dh) (H * Dh)
  k : DenseParams (H * Dh) (H * Dh)
  v : DenseParams (H * Dh) (H * Dh)
  proj : DenseParams (H * Dh) (H * Dh)

/-- `self.scale = head_dim ** -0.5`. -/
noncomputable def attnScale (headDim : ℕ) : ℝ :=
  (headDim : ℝ) ^ (-(1 / 2) : ℝ)

/-- The scaled query tensor of `ClassAttn.call`: `self.q` applied to
`x[:, 0]` only, expanded, reshaped to `(B, 1, H, Dh)`, transposed to
`(B, H, 1, Dh)` and multiplied by `self.scale` (the singleton token axis is
dropped). -/
noncomputable def attnQuery {B N H Dh : ℕ} (p : Params H Dh)
    (x : Fin B → Fin (N + 1) → Fin (H * Dh) → ℝ) :
    Fin B → Fin H → Fin Dh → ℝ :=
  fun b h d => attnScale Dh * dense p.q (x b 0) (flatIdx h d)

/-- The key tensor: `self.k` applied to every token, reshaped to
`(B, N, H, Dh)` and transposed to `(B, H, N, Dh)`. -/
def attnKey {B N H Dh : ℕ} (p : Params H Dh)
    (x : Fin B → Fin (N + 1) → Fin (H * Dh) → ℝ) :
    Fin B → Fin H → Fin (N + 1) → Fin Dh → ℝ :=
  fun b h n d => dense p.k (x b n) (flatIdx h d)

/-- The value tensor: `self.v` applied to every token, reshaped and
transposed like the keys. -/
def attnValue {B N H Dh : ℕ} (p : Params H Dh)
    (x : Fin B → Fin (N + 1) → Fin (H * Dh) → ℝ) :
    Fin B → Fin H → Fin (N + 1) → Fin Dh → ℝ :=
  fun b h n d => dense p.v (x b n) (flatIdx h d)

/-- `attn = tf.matmul(q, k, transpose_b=True)`: the `(B, H, 1, N)` logits
(singleton axis dropped). -/
noncomputable def attnLogits {B N H Dh : ℕ} (p : Params H Dh)
    (x : Fin B → Fin (N + 1) → Fin (H * Dh) → ℝ) :
    Fin B → Fin H → Fin (N + 1) → ℝ :=
  fun b h n => ∑ d, attnQuery p x b h d * attnKey p x b h n d

/-- `tf.nn.softmax(z, axis=-1)`. -/
noncomputable def softmax {n : ℕ} (z : Fin n → ℝ) : Fin n → ℝ :=
  fun i => Real.exp (z i) / ∑ j, Real.exp (z j)

/-- `attn = tf.nn.softmax(attn, axis=-1)`: softmax over the key axis (the
last axis of the `(B, H, 1, N)` logits). -/
noncomputable def attnWeights {B N H Dh : ℕ} (p : Params H Dh)
    (x : Fin B → Fin (N + 1) → Fin (H * Dh) → ℝ) :
    Fin B → Fin H → Fin (N + 1) → ℝ :=
  fun b h => softmax (attnLogits p x b h)

/-- `x_cls = tf.matmul(attn, v)`: the attended per-head output
`(B, H, 1, Dh)` (singleton axis dropped). -/
noncomputable def clsOut {B N H Dh : ℕ} (p : Params H Dh)
    (x : Fin B → Fin (N + 1) → Fin (H * Dh) → ℝ) :
    Fin B → Fin H → Fin Dh → ℝ :=
  fun b h d => ∑ n, attnWeights p x b h n * attnValue p x b h n d

/-- `ClassAttn.call` at inference: returns the projected attended output of
shape `(B, 1, C)` (the transpose/reshape back to a flat channel axis is the
`unflatHead`/`unflatDim` indexing) together with the `(B, H, 1, N)`
attention weights. -/
noncomputable def call {B N H Dh : ℕ} (p : Params H Dh)
    (x : Fin B → Fin (N + 1) → Fin (H * Dh) → ℝ) :
    (Fin B → Fin 1 → Fin (H * Dh) → ℝ)
      × (Fin B → Fin H → Fin 1 → Fin (N + 1) → ℝ) :=
  (fun b _ c =>
      dense p.proj (fun c2 => clsOut p x b (unflatHead c2) (unflatDim c2)) c,
    fun b h _ n => attnWeights p x b h n)

/-- Modelled from the claim's words, for comparison with `call`: the query
is formed from the first token `x[:, 0]` alone via the query projection;
all `N+1` tokens pass through the key and value projections; the attention
scores are the dot products of query and keys scaled by
`head_dim ** -0.5`; softmax is applied over the key axis; the values are
averaged with those weights, and the result is output-projected to shape
`(B, 1, C)` and returned together with the attention weights. -/
noncomputable def specCall {B N H Dh : ℕ} (p : Params H Dh)
    (x : Fin B → Fin (N + 1) → Fin (H * Dh) → ℝ) :
    (Fin B → Fin 1 → Fin (H * Dh) → ℝ)
      × (Fin B → Fin H → Fin 1 → Fin (N + 1) → ℝ) :=
  let clsTok : Fin B → Fin (H * Dh) → ℝ := fun b => x b 0
  let qh : Fin B → Fin H → Fin Dh → ℝ :=
    fun b h d => dense p.q (clsTok b) (flatIdx h d)
  let kh : Fin B → Fin H → Fin (N + 1) → Fin Dh → ℝ :=
    fun b h n d => dense p.k (x b n) (flatIdx h d)
  let vh : Fin B → Fin H → Fin (N + 1) → Fin Dh → ℝ :=
    fun b h n d => dense p.v (x b n) (flatIdx h d)
  let scores : Fin B → Fin H → Fin (N + 1) → ℝ :=
    fun b h n => attnScale Dh * ∑ d, qh b h d * kh b h n d
  let weights : Fin B → Fin H → Fin (N + 1) → ℝ :=
    fun b h => softmax (scores b h)
  (fun b _ c =>
      dense p.proj
        (fun c2 => ∑ n, weights b (unflatHead c2) n
          * vh b (unflatHead c2) n (unflatDim c2)) c,
    fun b h _ n => weights b h n)

theorem attnLogits_eq_scaled {B N H Dh : ℕ} (p : Params H Dh)
    (x : Fin B → Fin (N + 1) → Fin (H * Dh) → ℝ) (b : Fin B) (h : Fin H)
    (n : Fin (N + 1)) :
    attnLogits p x b h n
      = attnScale Dh * ∑ d, dense p.q (x b 0) (flatIdx h d)
        * dense p.k (x b n) (flatIdx h d) := by
  unfold attnLogits attnQuery attnKey
  rw [Finset.mul_sum]
  exact Finset.sum_congr rfl fun d _ => by ring

end ClassAttn

/-- C6: the CaiT class-attention layer implements the published
class-attention mechanism.  (1) `ClassAttn.call` coincides with the
mechanism as the claim words it (`specCall`): the query is formed from the
CLS token `x[:, 0]` only, all tokens serve as keys and values, the
attention scores are the query-key dot products scaled by
`head_dim ** -0.5`, softmax is applied over the key axis, and the
weighted-value output, projected to shape `(B, 1, C)`, is returned together
with the attention weights (the `(B, 1, C)` and `(B, H, 1, N)` shapes are
the types of the two components).  (2) The query tensor reads the input
only through its first token: it is unchanged when every token of `x` is
replaced by the CLS token.  (3) The returned attention weights form a
probability distribution over the key axis: they sum to 1. -/
theorem C6_class_attention (B N H Dh : ℕ) (p : ClassAttn.Params H Dh)
    (x : Fin B → Fin (N + 1) → Fin (H * Dh) → ℝ) :
    ClassAttn.call p x = ClassAttn.specCall p x
      ∧ ClassAttn.attnQuery p x
        = ClassAttn.attnQuery p (fun b (_ : Fin (N + 1)) c => x b 0 c)
      ∧ (∀ b h, ∑ n, (ClassAttn.call p x).2 b h 0 n = 1) := by
  have hw : ∀ (b : Fin B) (h : Fin H) (n : Fin (N + 1)),
      ClassAttn.attnWeights p x b h n
        = ClassAttn.softmax (fun m => ClassAttn.attnScale Dh
          * ∑ d, ClassAttn.dense p.q (x b 0) (ClassAttn.flatIdx h d)
            * ClassAttn.dense p.k (x b m) (ClassAttn.flatIdx h d)) n := by
    intro b h n
    unfold ClassAttn.attnWeights
    congr 1
    funext m
    exact ClassAttn.attnLogits_eq_scaled p x b h m
  refine ⟨?_, rfl, ?_⟩
  · unfold ClassAttn.call ClassAttn.specCall
    refine Prod.ext ?_ ?_
    · funext b o c
      show ClassAttn.dense p.proj _ c = ClassAttn.dense p.proj _ c
      congr 1
      funext c2
      unfold ClassAttn.clsOut ClassAttn.attnValue
      exact Finset.sum_congr rfl fun n _ => by rw [hw]
    · funext b h o n
      exact hw b h n
  · intro b h
    show ∑ n, ClassAttn.attnWeights p x b h n = 1
    unfold ClassAttn.attnWeights ClassAttn.softmax
    rw [← Finset.sum_div]
    have hne : (Finset.univ : Finset (Fin (N + 1))).Nonempty :=
      ⟨0, Finset.mem_univ 0⟩
    have hpos : 0 < ∑ m, Real.exp (ClassAttn.attnLogits p x b h m) :=
      Finset.sum_pos (fun m _ => Real.exp_pos _) hne
    exact div_self (ne_of_gt hpos)

end Snapshot
